import Mathlib

/-!
Verification of the checkpointing exercise notebook
(`3_advanced/7_Checkpointing Exercise`).

The notebook defines three functions:
* `create_dataframe_ex(sc, spark)` — builds a 23-row literal dataframe with
  headers `("id", "name", "age")`;
* `delete_hdfs_directory(sc, spark, input_ckpt_path)` — checks existence of a
  path on the HDFS filesystem and, if present, deletes it recursively
  (`fs.delete(Path(input_ckpt_path), True)`);
* `create_checkpoint_ex(sc, spark)` — builds the dataframe, sets the
  checkpoint directory (`location_prefix + "my_local_check_point"`), eagerly
  checkpoints the dataframe (`df.checkpoint(True)`), inspects
  `isCheckpointed` / `getCheckpointFile`, and finally deletes the checkpoint
  directory with `delete_hdfs_directory`.

The Spark engine and the Hadoop filesystem are external collaborators; their
behaviour is modelled from the specification (see the doc comments marked
`Modelled from the spec`).  The notebook's own functions are embedded directly
from the source.  External calls that the claims talk about (configuring the
checkpoint directory, invoking the checkpoint, existence checks and deletes)
are recorded in an event trace so that claims about call order and call
arguments can be stated.  Both fallible collaborator operations carry their
failure outcomes: the checkpoint fails on an unconfigured or unwritable
location, and the filesystem delete capability is `success/failure` — the
storage layer can reject a removal (deletion error), and since the notebook
has no try/except, such an error propagates uncaught out of the workflow.
-/

/-- One record of the sample dataset: the source builds tuples
`(id, name, age)`. -/
structure Row where
  id : Nat
  name : String
  age : Nat
deriving DecidableEq

/-- The headers passed to `spark.createDataFrame`: `("id", "name", "age")`.
The spec's abstract column name `identifier` is the source column `"id"`. -/
def sampleHeaders : List String := ["id", "name", "age"]

/-- The 23-record literal `data` list of `create_dataframe_ex`, in source
order. -/
def sampleData : List Row :=
  [⟨1, "Steve", 26⟩, ⟨2, "Yolanda", 23⟩, ⟨3, "James", 21⟩, ⟨4, "Joe", 19⟩,
   ⟨5, "Ryan", 20⟩, ⟨6, "Connor", 26⟩, ⟨7, "Alan", 31⟩, ⟨8, "John", 32⟩,
   ⟨9, "Samantha", 28⟩, ⟨10, "Alex", 30⟩, ⟨11, "Dennis", 29⟩, ⟨12, "Michael", 34⟩,
   ⟨13, "Matthew", 27⟩, ⟨14, "Jim", 29⟩, ⟨15, "Sophia", 25⟩,
   ⟨16, "Wendy", 29⟩, ⟨17, "Stephan", 32⟩, ⟨18, "Claude", 22⟩,
   ⟨19, "Brendan", 24⟩, ⟨20, "Regina", 37⟩, ⟨21, "Stanley", 21⟩,
   ⟨22, "Sharron", 32⟩, ⟨23, "James", 21⟩]

/-- Opaque handle standing for the externally supplied `SparkContext`. -/
structure SparkContext where
  cid : Nat
deriving DecidableEq

/-- Opaque handle standing for the externally supplied `SparkSession`. -/
structure SparkSession where
  sid : Nat
deriving DecidableEq

/-- A dataframe: its rows, its headers, and (after a checkpoint) the file the
underlying RDD was checkpointed to. -/
structure DataFrame where
  rows : List Row
  headers : List String
  ckptFile : Option String
deriving DecidableEq

/-- Engine-reported errors, per the spec's error taxonomy: configuration
error (no checkpoint location set), persistence error (location not
writable), and deletion error (the underlying storage rejects the delete). -/
inductive EngineError where
  | noCheckpointDir : EngineError
  | notWritable : String → EngineError
  | deleteRejected : String → EngineError
deriving DecidableEq

/-- Events recording the workflow's calls into the external engine and the
external filesystem. -/
inductive Event where
  | evSetCheckpointDir : String → Event
  | evCheckpointCall : Event
  | evFsExists : String → Event
  | evFsDelete : String → Bool → Event
deriving DecidableEq

/-- Modelled from the spec: the state of the external engine and its durable
storage.  `checkpointDir` is the engine-wide configured checkpoint location
(spec: "mutates engine-wide configuration"); `storage` is the durable
storage, a list of (file path, contents) entries; `unwritable` lists
locations the storage layer refuses to write (spec: "fails ... if the
location is not writable"); `undeletable` lists paths whose removal the
storage layer rejects (spec: "deletion error — underlying storage rejects
the delete (permissions, path in use)"). -/
structure EngineState where
  checkpointDir : Option String
  storage : List (String × List Row)
  unwritable : List String
  undeletable : List String
deriving DecidableEq

/-- Boolean string-prefix test, via the character lists. -/
def strIsPrefixOf (p s : String) : Bool := p.toList.isPrefixOf s.toList

/-- Modelled from the spec: a path exists in durable storage when an entry is
stored at that exact path or at a path strictly below it (a directory exists
when something is stored underneath it). -/
def fsExists (st : EngineState) (p : String) : Bool :=
  st.storage.any (fun e => e.1 == p || strIsPrefixOf (p ++ "/") e.1)

/-- Modelled from the spec: the external filesystem delete capability
`(path: string, recursive: bool) → success/failure`.  When the storage layer
rejects the removal of `p` (permissions, path in use) the call fails with a
deletion error; otherwise it succeeds, removing the entry at `p` and, when
`recursive` is true, every entry below `p`.  Either way the call is recorded
as an `evFsDelete` event. -/
def fsDelete (st : EngineState) (p : String) (recursive : Bool) :
    Except EngineError EngineState × List Event :=
  let keep : String × List Row → Bool :=
    fun e => !(e.1 == p || (recursive && strIsPrefixOf (p ++ "/") e.1))
  let res : Except EngineError EngineState :=
    if st.undeletable.contains p then
      Except.error (EngineError.deleteRejected p)
    else
      Except.ok { st with storage := st.storage.filter keep }
  (res, [Event.evFsDelete p recursive])

/-- Modelled from the spec: `sc.setCheckpointDir` registers the path as the
engine-wide checkpoint location. -/
def setCheckpointDir (st : EngineState) (p : String) :
    EngineState × List Event :=
  ({ st with checkpointDir := some p }, [Event.evSetCheckpointDir p])

/-- The fixed name under the checkpoint directory that the engine stores the
checkpointed RDD at. -/
def checkpointRddName : String := "rdd-checkpoint"

/-- Modelled from the spec: `checkpoint_dataset` synchronously materializes
the dataset's rows to a file under the configured checkpoint location and
returns a new dataframe reference carrying that checkpoint file.  It fails
with an engine-reported error if no checkpoint location was configured or if
the configured location is not writable. -/
def checkpointDF (st : EngineState) (df : DataFrame) :
    Except EngineError (EngineState × DataFrame) :=
  match st.checkpointDir with
  | none => Except.error EngineError.noCheckpointDir
  | some dir =>
    if st.unwritable.contains dir then
      Except.error (EngineError.notWritable dir)
    else
      let file := dir ++ "/" ++ checkpointRddName
      Except.ok
        ({ st with storage := (file, df.rows) :: st.storage },
         { df with ckptFile := some file })

/-- Modelled from the spec: `df.rdd.isCheckpointed()` — whether this dataframe
instance has been checkpointed. -/
def isCheckpointed (df : DataFrame) : Bool := df.ckptFile.isSome

/-- Modelled from the spec: `df.rdd.getCheckpointFile()` — the file this
dataframe was checkpointed to, if any. -/
def getCheckpointFile (df : DataFrame) : Option String := df.ckptFile

/-- Modelled from the spec: reading back the contents stored at a path in
durable storage. -/
def readCheckpointFile (st : EngineState) (p : String) : Option (List Row) :=
  (st.storage.find? (fun e => e.1 == p)).map (fun e => e.2)

/-- Source: `location_prefix = ""` (the `"/tmp/"` alternative is commented
out). -/
def location_prefix : String := ""

/-- The checkpoint directory computed in `create_checkpoint_ex`:
`location_prefix + "my_local_check_point"`. -/
def checkpoint_dir_value : String := location_prefix ++ "my_local_check_point"

/-- Embedding of the source function `create_dataframe_ex(sc, spark)`: builds
the dataframe from the literal `data` with headers `("id", "name", "age")`.
It is total — no failure modes — and ignores both handles. -/
def create_dataframe_ex (sc : SparkContext) (spark : SparkSession) :
    DataFrame :=
  { rows := sampleData, headers := sampleHeaders, ckptFile := none }

/-- Embedding of the source function
`delete_hdfs_directory(sc, spark, input_ckpt_path)`: query
`fs.exists(Path(input_ckpt_path))`; when it holds, call
`fs.delete(Path(input_ckpt_path), True)`; otherwise do nothing.  The source
has no try/except, so a deletion error reported by the filesystem propagates
to the caller; on the non-existent path the delete is never invoked, so that
branch cannot fail.  The returned event list records the external filesystem
calls made. -/
def delete_hdfs_directory (st : EngineState) (input_ckpt_path : String) :
    Except EngineError EngineState × List Event :=
  if fsExists st input_ckpt_path then
    let r := fsDelete st input_ckpt_path true
    (r.1, Event.evFsExists input_ckpt_path :: r.2)
  else
    (Except.ok st, [Event.evFsExists input_ckpt_path])

/-- Embedding of the source function `create_checkpoint_ex(sc, spark)`:
build the dataframe, set the checkpoint directory
(`location_prefix + "my_local_check_point"`), eagerly checkpoint the
dataframe (`df.checkpoint(True)` — the spec's synchronous
`checkpoint_dataset`), then delete the checkpoint directory via
`delete_hdfs_directory`.  Any engine error — configuration, persistence, or
deletion — is returned as is: the source has no try/except, so errors
propagate uncaught.  The event list records the external calls in program
order, also on the error paths. -/
def create_checkpoint_ex (sc : SparkContext) (spark : SparkSession)
    (st : EngineState) :
    Except EngineError (EngineState × DataFrame) × List Event :=
  let df := create_dataframe_ex sc spark
  let checkpoint_dir := location_prefix ++ "my_local_check_point"
  let c := setCheckpointDir st checkpoint_dir
  match checkpointDF c.1 df with
  | Except.error e => (Except.error e, c.2 ++ [Event.evCheckpointCall])
  | Except.ok r =>
    let d := delete_hdfs_directory r.1 checkpoint_dir
    match d.1 with
    | Except.error e =>
      (Except.error e, c.2 ++ [Event.evCheckpointCall] ++ d.2)
    | Except.ok st3 =>
      (Except.ok (st3, r.2), c.2 ++ [Event.evCheckpointCall] ++ d.2)

/-- The per-dataset states of the spec's state machine: `Unmaterialized`
(never checkpointed), `Checkpointed` (checkpoint file present in storage),
`danglingDeleted` (the dataset carries a checkpoint file reference but the
location no longer exists). -/
inductive DfState where
  | unmaterialized : DfState
  | checkpointed : DfState
  | danglingDeleted : DfState
deriving DecidableEq

/-- The state-machine state of a dataset relative to the engine state. -/
def dfStateOf (st : EngineState) (df : DataFrame) : DfState :=
  match df.ckptFile with
  | none => DfState.unmaterialized
  | some p => if fsExists st p then DfState.checkpointed else DfState.danglingDeleted

/-- The same workflow as `create_checkpoint_ex`, with the intermediate
(engine state, dataframe) snapshots recorded: after dataframe creation, after
`setCheckpointDir`, after the checkpoint, and after the deletion.  A run
that fails at the checkpoint or at the delete returns that error, like
`create_checkpoint_ex`. -/
def create_checkpoint_snapshots (sc : SparkContext) (spark : SparkSession)
    (st : EngineState) :
    Except EngineError (List (EngineState × DataFrame)) :=
  let df := create_dataframe_ex sc spark
  let checkpoint_dir := location_prefix ++ "my_local_check_point"
  let c := setCheckpointDir st checkpoint_dir
  match checkpointDF c.1 df with
  | Except.error e => Except.error e
  | Except.ok r =>
    let d := delete_hdfs_directory r.1 checkpoint_dir
    match d.1 with
    | Except.error e => Except.error e
    | Except.ok st3 => Except.ok [(st, df), (c.1, df), (r.1, r.2), (st3, r.2)]

/-- Concrete context handle for witnesses. -/
def sc0 : SparkContext := ⟨0⟩

/-- Concrete session handle for witnesses. -/
def spark0 : SparkSession := ⟨0⟩

/-- Concrete fresh engine state for witnesses: nothing configured, empty
storage, everything writable and deletable. -/
def st0 : EngineState := ⟨none, [], [], []⟩

/-- Concrete engine state with the checkpoint location `"ckpt_test"` already
configured, for witnesses. -/
def stCfg : EngineState := ⟨some "ckpt_test", [], [], []⟩

/-- Concrete engine state whose storage holds one entry below
`"my_local_check_point"`, for witnesses about deletion. -/
def stDel : EngineState :=
  ⟨none, [("my_local_check_point/rdd-checkpoint", sampleData)], [], []⟩

/-- Concrete engine state whose configured location is unwritable, for
witnesses about persistence errors. -/
def stUnw : EngineState := ⟨some "ro_dir", [], ["ro_dir"], []⟩

/-- Concrete engine state in which the workflow's own checkpoint directory is
unwritable, for witnesses about persistence-error propagation. -/
def stBad : EngineState := ⟨none, [], ["my_local_check_point"], []⟩

/-- Concrete engine state in which the storage layer rejects deleting the
workflow's checkpoint directory, for witnesses about deletion-error
propagation. -/
def stRej : EngineState := ⟨none, [], [], ["my_local_check_point"]⟩

/-- The string-prefix test is transitive. -/
lemma strIsPrefixOf_trans {a b c : String} (h1 : strIsPrefixOf a b = true)
    (h2 : strIsPrefixOf b c = true) : strIsPrefixOf a c = true := by
  simp only [strIsPrefixOf, List.isPrefixOf_iff_prefix] at h1 h2 ⊢
  exact h1.trans h2

/-- A string is a prefix of itself followed by anything. -/
lemma strIsPrefixOf_append (d t : String) :
    strIsPrefixOf d (d ++ t) = true := by
  simp only [strIsPrefixOf, List.isPrefixOf_iff_prefix]
  show d.data <+: (d ++ t).data
  rw [String.data_append]
  exact List.prefix_append d.data t.data

/-- Filtering out every element satisfying `p` leaves nothing satisfying a
predicate `q` that entails `p`. -/
lemma any_filter_eq_false {α : Type} (l : List α) (p q : α → Bool)
    (h : ∀ a, q a = true → p a = true) :
    (l.filter (fun a => !(p a))).any q = false := by
  rw [List.any_eq_false]
  intro a ha
  obtain ⟨_, hk⟩ := List.mem_filter.mp ha
  intro hq
  rw [h a hq] at hk
  simp at hk

/-- When `delete_hdfs_directory st p` completes without error, the path `p`
no longer exists in the resulting state. -/
lemma fsExists_after_delete (st : EngineState) (p : String)
    (st2 : EngineState)
    (h : (delete_hdfs_directory st p).1 = Except.ok st2) :
    fsExists st2 p = false := by
  unfold delete_hdfs_directory at h
  split at h
  · simp only [fsDelete] at h
    split at h
    · cases h
    · rw [Except.ok.injEq] at h
      subst h
      simp only [fsExists]
      exact any_filter_eq_false st.storage _ _ (fun a ha => by
        rw [Bool.true_and]; exact ha)
  · rename_i hne
    rw [Except.ok.injEq] at h
    subst h
    simpa using hne

/-- When the path does not exist, `delete_hdfs_directory` succeeds and leaves
the engine state unchanged — the delete capability is never invoked, so no
deletion error can arise on this branch. -/
lemma delete_noop_of_not_exists (st : EngineState) (p : String)
    (h : fsExists st p = false) :
    (delete_hdfs_directory st p).1 = Except.ok st := by
  unfold delete_hdfs_directory
  split
  · rename_i hex
    rw [h] at hex
    cases hex
  · rfl

/-- When the storage layer does not reject the path, `delete_hdfs_directory`
completes without error. -/
lemma delete_ok_of_not_undeletable (st : EngineState) (p : String)
    (h : p ∉ st.undeletable) :
    ∃ st2, (delete_hdfs_directory st p).1 = Except.ok st2 := by
  unfold delete_hdfs_directory
  split
  · simp only [fsDelete]
    rw [if_neg]
    · exact ⟨_, rfl⟩
    · simpa using h
  · exact ⟨st, rfl⟩

/-- The only error `delete_hdfs_directory` can report is the storage layer
rejecting the delete of its path. -/
lemma delete_hdfs_error_form (st : EngineState) (p : String) (e : EngineError)
    (h : (delete_hdfs_directory st p).1 = Except.error e) :
    e = EngineError.deleteRejected p := by
  unfold delete_hdfs_directory at h
  split at h
  · simp only [fsDelete] at h
    split at h
    · rw [Except.error.injEq] at h
      exact h.symm
    · cases h
  · cases h

/-- C2: `delete_location` on an existing location removes it — whenever the
delete completes, a subsequent existence check on the result returns false;
on a non-existent location it is a no-op that does not raise, for every
state (the source checks existence before invoking the delete capability);
a second call in succession after a completed delete produces no error (it
succeeds as a no-op); and on every path the storage layer does not reject,
the call completes without error. -/
theorem delete_location_correct (st : EngineState) (p : String) :
    (∀ st2, (delete_hdfs_directory st p).1 = Except.ok st2 →
      fsExists st2 p = false) ∧
    (fsExists st p = false → (delete_hdfs_directory st p).1 = Except.ok st) ∧
    (∀ st2, (delete_hdfs_directory st p).1 = Except.ok st2 →
      (delete_hdfs_directory st2 p).1 = Except.ok st2) ∧
    (p ∉ st.undeletable →
      ∃ st2, (delete_hdfs_directory st p).1 = Except.ok st2) :=
  ⟨fun st2 h => fsExists_after_delete st p st2 h,
   delete_noop_of_not_exists st p,
   fun st2 h =>
     delete_noop_of_not_exists st2 p (fsExists_after_delete st p st2 h),
   delete_ok_of_not_undeletable st p⟩

/-- Witness for C2 at concrete inputs: deleting the populated location
`"my_local_check_point"` completes and makes it not exist, deleting the
absent path `"nope"` is a no-op, the repeated delete succeeds as a no-op,
and the delete on the populated state completes without error. -/
theorem delete_location_correct_witness :
    fsExists (⟨none, [], [], []⟩ : EngineState) "my_local_check_point" =
      false ∧
    (delete_hdfs_directory st0 "nope").1 = Except.ok st0 ∧
    (delete_hdfs_directory (⟨none, [], [], []⟩ : EngineState)
        "my_local_check_point").1 =
      Except.ok (⟨none, [], [], []⟩ : EngineState) ∧
    ∃ st2, (delete_hdfs_directory stDel "my_local_check_point").1 =
      Except.ok st2 :=
  ⟨(delete_location_correct stDel "my_local_check_point").1
      ⟨none, [], [], []⟩ (by rfl),
   (delete_location_correct st0 "nope").2.1 (by decide),
   (delete_location_correct stDel "my_local_check_point").2.2.1
      ⟨none, [], [], []⟩ (by rfl),
   (delete_location_correct stDel "my_local_check_point").2.2.2 (by decide)⟩

/-- C3: a freshly built dataset is not checkpointed, and after any successful
`checkpoint_dataset` call the returned dataset reports `isCheckpointed`
true. -/
theorem is_checkpointed_before_and_after :
    (∀ sc spark, isCheckpointed (create_dataframe_ex sc spark) = false) ∧
    (∀ st df st' df', checkpointDF st df = Except.ok (st', df') →
      isCheckpointed df' = true) := by
  refine ⟨fun sc spark => rfl, fun st df st' df' h => ?_⟩
  unfold checkpointDF at h
  cases hdir : st.checkpointDir with
  | none => rw [hdir] at h; cases h
  | some dir =>
    rw [hdir] at h
    by_cases hw : dir ∈ st.unwritable
    · simp [hw] at h
    · simp [hw] at h
      rw [← h.2]
      rfl

/-- Witness for C3 at concrete inputs: the fresh sample dataframe is not
checkpointed, and the dataframe produced by a successful checkpoint on the
configured state `stCfg` is. -/
theorem is_checkpointed_before_and_after_witness :
    isCheckpointed (create_dataframe_ex sc0 spark0) = false ∧
    isCheckpointed ⟨sampleData, sampleHeaders, some "ckpt_test/rdd-checkpoint"⟩
      = true :=
  ⟨is_checkpointed_before_and_after.1 sc0 spark0,
   is_checkpointed_before_and_after.2 stCfg (create_dataframe_ex sc0 spark0)
     ⟨some "ckpt_test", [("ckpt_test/rdd-checkpoint", sampleData)], [], []⟩
     ⟨sampleData, sampleHeaders, some "ckpt_test/rdd-checkpoint"⟩ (by rfl)⟩

/-- C4: after a successful `checkpoint_dataset` call, the checkpoint file of
the returned dataset is a path that extends (is prefixed by) the configured
checkpoint location. -/
theorem checkpoint_file_under_location
    (st : EngineState) (df : DataFrame) (st' : EngineState) (df' : DataFrame)
    (d : String) (h : checkpointDF st df = Except.ok (st', df'))
    (hd : st.checkpointDir = some d) :
    ∃ t, getCheckpointFile df' = some (d ++ t) ∧
      strIsPrefixOf d (d ++ t) = true := by
  unfold checkpointDF at h
  rw [hd] at h
  by_cases hw : d ∈ st.unwritable
  · simp [hw] at h
  · simp [hw] at h
    refine ⟨"/" ++ checkpointRddName, ?_, strIsPrefixOf_append _ _⟩
    rw [← h.2]
    show some (d ++ "/" ++ checkpointRddName) = _
    rw [String.append_assoc]

/-- Witness for C4 at concrete inputs: checkpointing on the configured state
`stCfg` yields a file path extending `"ckpt_test"`. -/
theorem checkpoint_file_under_location_witness :
    ∃ t, getCheckpointFile
        ⟨sampleData, sampleHeaders, some "ckpt_test/rdd-checkpoint"⟩ =
        some ("ckpt_test" ++ t) ∧
      strIsPrefixOf "ckpt_test" ("ckpt_test" ++ t) = true :=
  checkpoint_file_under_location stCfg (create_dataframe_ex sc0 spark0)
    ⟨some "ckpt_test", [("ckpt_test/rdd-checkpoint", sampleData)], [], []⟩
    ⟨sampleData, sampleHeaders, some "ckpt_test/rdd-checkpoint"⟩
    "ckpt_test" (by rfl) (by rfl)

/-- C8: `build_sample_dataset` ignores the session handles — every pair of
handles yields the identical dataframe — and returns the fixed 23-record
literal dataset with headers `id, name, age` (the spec's `identifier` column
is named `"id"` in the source); it is a total function, so it has no failure
modes. -/
theorem build_sample_dataset_fixed :
    ∀ sc spark sc' spark',
      create_dataframe_ex sc spark = create_dataframe_ex sc' spark' ∧
      (create_dataframe_ex sc spark).rows = sampleData ∧
      (create_dataframe_ex sc spark).rows.length = 23 ∧
      (create_dataframe_ex sc spark).headers = ["id", "name", "age"] ∧
      isCheckpointed (create_dataframe_ex sc spark) = false :=
  fun _ _ _ _ => ⟨rfl, rfl, rfl, rfl, rfl⟩

/-- C1: after a successful `checkpoint_dataset` call on the dataset built by
`build_sample_dataset`, reading the checkpoint file path back from durable
storage yields row-for-row identical contents to the original: the same 23
sample records in the same order, with the column order `id, name, age` (the
spec's `identifier` column is the source column `"id"`). -/
theorem checkpoint_round_trip (sc : SparkContext) (spark : SparkSession)
    (st st' : EngineState) (df' : DataFrame)
    (h : checkpointDF st (create_dataframe_ex sc spark) = Except.ok (st', df')) :
    ∃ f, getCheckpointFile df' = some f ∧
      readCheckpointFile st' f = some ((create_dataframe_ex sc spark).rows) ∧
      (create_dataframe_ex sc spark).rows = sampleData ∧
      sampleData.length = 23 ∧
      df'.headers = ["id", "name", "age"] := by
  unfold checkpointDF at h
  cases hdir : st.checkpointDir with
  | none => rw [hdir] at h; cases h
  | some dir =>
    rw [hdir] at h
    by_cases hw : dir ∈ st.unwritable
    · simp [hw] at h
    · simp [hw] at h
      obtain ⟨h1, h2⟩ := h
      subst h1
      subst h2
      refine ⟨dir ++ "/" ++ checkpointRddName, rfl, ?_, rfl, rfl, rfl⟩
      simp [readCheckpointFile]

/-- Witness for C1 at concrete inputs: checkpointing the sample dataframe in
the configured state `stCfg` and reading the checkpoint file back returns the
23 sample records. -/
theorem checkpoint_round_trip_witness :
    ∃ f, getCheckpointFile
        ⟨sampleData, sampleHeaders, some "ckpt_test/rdd-checkpoint"⟩ = some f ∧
      readCheckpointFile
          ⟨some "ckpt_test", [("ckpt_test/rdd-checkpoint", sampleData)],
            [], []⟩ f =
        some ((create_dataframe_ex sc0 spark0).rows) ∧
      (create_dataframe_ex sc0 spark0).rows = sampleData ∧
      sampleData.length = 23 ∧
      (⟨sampleData, sampleHeaders, some "ckpt_test/rdd-checkpoint"⟩ :
          DataFrame).headers = ["id", "name", "age"] :=
  checkpoint_round_trip sc0 spark0 stCfg
    ⟨some "ckpt_test", [("ckpt_test/rdd-checkpoint", sampleData)], [], []⟩
    ⟨sampleData, sampleHeaders, some "ckpt_test/rdd-checkpoint"⟩ (by rfl)

/-- When the checkpoint location is configured, `checkpoint_dataset` never
reports the missing-location error. -/
lemma checkpointDF_some_ne_noDir (st : EngineState) (df : DataFrame)
    (d : String) (hd : st.checkpointDir = some d) :
    checkpointDF st df ≠ Except.error EngineError.noCheckpointDir := by
  unfold checkpointDF
  rw [hd]
  by_cases hw : d ∈ st.unwritable <;> simp [hw]

/-- The checkpoint directory slash-terminated is a prefix of the checkpoint
file path the engine writes for this workflow. -/
lemma workflow_file_under_dir :
    strIsPrefixOf (checkpoint_dir_value ++ "/")
      (checkpoint_dir_value ++ "/" ++ checkpointRddName) = true := by decide

/-- The checkpoint directory slash-terminated is a prefix of the checkpoint
file path slash-terminated. -/
lemma workflow_file_slash_under_dir :
    strIsPrefixOf (checkpoint_dir_value ++ "/")
      (checkpoint_dir_value ++ "/" ++ checkpointRddName ++ "/") = true := by
  decide

/-- Storage entries matching the checkpoint file path (exactly or strictly
below it) also match the recursive delete of the checkpoint directory. -/
lemma workflow_delete_covers_file (a : String × List Row)
    (ha : (a.1 == checkpoint_dir_value ++ "/" ++ checkpointRddName ||
      strIsPrefixOf (checkpoint_dir_value ++ "/" ++ checkpointRddName ++ "/")
        a.1) = true) :
    (a.1 == checkpoint_dir_value ||
      (true && strIsPrefixOf (checkpoint_dir_value ++ "/") a.1)) = true := by
  simp only [Bool.or_eq_true] at ha
  rcases ha with h1 | h1
  · have h2 : a.1 = checkpoint_dir_value ++ "/" ++ checkpointRddName :=
      eq_of_beq h1
    rw [h2]
    decide
  · have h2 : strIsPrefixOf (checkpoint_dir_value ++ "/") a.1 = true :=
      strIsPrefixOf_trans workflow_file_slash_under_dir h1
    rw [h2]
    simp

/-- C5: the engine-reported errors and their uncaught propagation.
`checkpoint_dataset` fails when no checkpoint location was configured and
when the configured location is not writable; the filesystem delete fails
when the storage layer rejects the path; and both fallible steps of the
workflow propagate their error unchanged out of `create_checkpoint_ex` —
there is no local recovery, retry, or partial-success handling (the
configuration error is unreachable inside this workflow because the location
is always configured first, which is claim C10). -/
theorem checkpoint_errors_and_propagation :
    (∀ st df, st.checkpointDir = none →
      checkpointDF st df = Except.error EngineError.noCheckpointDir) ∧
    (∀ st df d, st.checkpointDir = some d → d ∈ st.unwritable →
      checkpointDF st df = Except.error (EngineError.notWritable d)) ∧
    (∀ st p r, p ∈ st.undeletable →
      (fsDelete st p r).1 =
        Except.error (EngineError.deleteRejected p)) ∧
    (∀ sc spark st, checkpoint_dir_value ∈ st.unwritable →
      (create_checkpoint_ex sc spark st).1 =
        Except.error (EngineError.notWritable checkpoint_dir_value)) ∧
    (∀ sc spark st, checkpoint_dir_value ∉ st.unwritable →
      checkpoint_dir_value ∈ st.undeletable →
      (create_checkpoint_ex sc spark st).1 =
        Except.error (EngineError.deleteRejected checkpoint_dir_value)) := by
  refine ⟨?_, ?_, ?_, ?_, ?_⟩
  · intro st df h
    unfold checkpointDF
    rw [h]
  · intro st df d hd hw
    unfold checkpointDF
    rw [hd]
    simp [hw]
  · intro st p r hp
    simp [fsDelete, hp]
  · intro sc spark st hw
    unfold checkpoint_dir_value at hw ⊢
    simp [create_checkpoint_ex, setCheckpointDir, checkpointDF, hw]
  · intro sc spark st hw hd
    have hw2 : ( location_prefix ++ "my_local_check_point") ∉
        st.unwritable := hw
    have hd2 : ( location_prefix ++ "my_local_check_point") ∈
        st.undeletable := hd
    have hps : strIsPrefixOf
        ( location_prefix ++ "my_local_check_point" ++ "/")
        ( location_prefix ++ "my_local_check_point" ++ "/" ++
          checkpointRddName) = true := workflow_file_under_dir
    simp [create_checkpoint_ex, setCheckpointDir, create_dataframe_ex,
      checkpointDF, delete_hdfs_directory, fsDelete, fsExists, hw2, hd2,
      hps, checkpoint_dir_value]

/-- Witness for C5 at concrete inputs: checkpointing with no configured
location errors, checkpointing into the unwritable `"ro_dir"` errors, the
delete capability errors on the rejected path, and the full workflow
surfaces both the unwritable-location error and the rejected-delete error
uncaught. -/
theorem checkpoint_errors_and_propagation_witness :
    checkpointDF st0 (create_dataframe_ex sc0 spark0) =
      Except.error EngineError.noCheckpointDir ∧
    checkpointDF stUnw (create_dataframe_ex sc0 spark0) =
      Except.error (EngineError.notWritable "ro_dir") ∧
    (fsDelete stRej "my_local_check_point" true).1 =
      Except.error (EngineError.deleteRejected "my_local_check_point") ∧
    (create_checkpoint_ex sc0 spark0 stBad).1 =
      Except.error (EngineError.notWritable checkpoint_dir_value) ∧
    (create_checkpoint_ex sc0 spark0 stRej).1 =
      Except.error (EngineError.deleteRejected checkpoint_dir_value) :=
  ⟨checkpoint_errors_and_propagation.1 st0 (create_dataframe_ex sc0 spark0)
      rfl,
   checkpoint_errors_and_propagation.2.1 stUnw
      (create_dataframe_ex sc0 spark0) "ro_dir" rfl (by decide),
   checkpoint_errors_and_propagation.2.2.1 stRej "my_local_check_point" true
      (by decide),
   checkpoint_errors_and_propagation.2.2.2.1 sc0 spark0 stBad (by decide),
   checkpoint_errors_and_propagation.2.2.2.2 sc0 spark0 stRej (by decide)
      (by decide)⟩

/-- Any `evFsDelete` event emitted by `delete_hdfs_directory st p` carries
the path `p` and the recursive flag `true`. -/
lemma delete_hdfs_events (st : EngineState) (p q : String) (r : Bool)
    (h : Event.evFsDelete q r ∈ (delete_hdfs_directory st p).2) :
    q = p ∧ r = true := by
  unfold delete_hdfs_directory at h
  split at h
  · simp [fsDelete] at h
    exact h
  · simp at h

/-- The event trace of `create_checkpoint_ex` starts with configuring the
checkpoint directory and the checkpoint call, and continues, when the
checkpoint succeeded, with the events of `delete_hdfs_directory` on the same
directory. -/
lemma create_checkpoint_ex_events (sc : SparkContext) (spark : SparkSession)
    (st : EngineState) :
    (create_checkpoint_ex sc spark st).2 =
      [Event.evSetCheckpointDir checkpoint_dir_value,
       Event.evCheckpointCall] ∨
    (∃ st2, (create_checkpoint_ex sc spark st).2 =
      Event.evSetCheckpointDir checkpoint_dir_value ::
        Event.evCheckpointCall ::
          (delete_hdfs_directory st2 checkpoint_dir_value).2) := by
  simp only [create_checkpoint_ex]
  split
  · left; rfl
  · rename_i r heq
    split
    · right; exact ⟨r.1, rfl⟩
    · right; exact ⟨r.1, rfl⟩

/-- C6: in every run of the workflow, every path passed to the filesystem
delete operation equals the path previously passed to `setCheckpointDir`:
the deleted path is the configured checkpoint directory, and the first
recorded event of the run is the configuration of that same path. -/
theorem delete_path_equals_configured_path (sc : SparkContext)
    (spark : SparkSession) (st : EngineState) (q : String) (r : Bool)
    (hm : Event.evFsDelete q r ∈ (create_checkpoint_ex sc spark st).2) :
    q = checkpoint_dir_value ∧
    (create_checkpoint_ex sc spark st).2.head? =
      some (Event.evSetCheckpointDir q) := by
  rcases create_checkpoint_ex_events sc spark st with h | ⟨st2, h⟩
  · rw [h] at hm
    simp at hm
  · rw [h] at hm ⊢
    simp only [List.mem_cons] at hm
    rcases hm with h1 | h1 | h1
    · cases h1
    · cases h1
    · have hq := (delete_hdfs_events st2 checkpoint_dir_value q r h1).1
      subst hq
      exact ⟨rfl, rfl⟩

/-- Witness for C6 at concrete inputs: the run on the fresh state `st0`
deletes `"my_local_check_point"`, which equals the configured directory and
is the path of the run's first (configuration) event. -/
theorem delete_path_equals_configured_path_witness :
    "my_local_check_point" = checkpoint_dir_value ∧
    (create_checkpoint_ex sc0 spark0 st0).2.head? =
      some (Event.evSetCheckpointDir "my_local_check_point") :=
  delete_path_equals_configured_path sc0 spark0 st0 "my_local_check_point"
    true (by decide)

/-- C7: every invocation of the external filesystem delete operation — both
by `delete_hdfs_directory` itself and within any run of the workflow
`create_checkpoint_ex` — passes `recursive = true` as the second argument. -/
theorem all_fs_deletes_recursive :
    (∀ st p q r, Event.evFsDelete q r ∈ (delete_hdfs_directory st p).2 →
      r = true) ∧
    (∀ sc spark st q r,
      Event.evFsDelete q r ∈ (create_checkpoint_ex sc spark st).2 →
      r = true) := by
  constructor
  · intro st p q r h
    exact (delete_hdfs_events st p q r h).2
  · intro sc spark st q r hm
    rcases create_checkpoint_ex_events sc spark st with h | ⟨st2, h⟩
    · rw [h] at hm
      simp at hm
    · rw [h] at hm
      simp only [List.mem_cons] at hm
      rcases hm with h1 | h1 | h1
      · cases h1
      · cases h1
      · exact (delete_hdfs_events st2 checkpoint_dir_value q r h1).2

/-- Witness for C7 at concrete inputs: the delete events that occur when
deleting the populated location `stDel` and in the workflow run on `st0`
both carry the recursive flag `true`. -/
theorem all_fs_deletes_recursive_witness : true = true ∧ true = true :=
  ⟨all_fs_deletes_recursive.1 stDel "my_local_check_point"
      "my_local_check_point" true (by decide),
   all_fs_deletes_recursive.2 sc0 spark0 st0 "my_local_check_point" true
      (by decide)⟩

/-- C10: in every run of `create_checkpoint_ex` the checkpoint location is
configured strictly before the checkpoint call — the trace always begins
with the `setCheckpointDir` event followed by the checkpoint call — so the
missing-checkpoint-location error of `checkpoint_dataset` is unreachable in
this workflow. -/
theorem configure_precedes_checkpoint :
    (∀ sc spark st, (create_checkpoint_ex sc spark st).1 ≠
        Except.error EngineError.noCheckpointDir) ∧
    (∀ sc spark st, ∃ rest, (create_checkpoint_ex sc spark st).2 =
        Event.evSetCheckpointDir checkpoint_dir_value ::
          Event.evCheckpointCall :: rest) := by
  constructor
  · intro sc spark st
    simp only [create_checkpoint_ex]
    split
    · rename_i e heq
      intro hcontra
      simp only at hcontra
      rw [Except.error.injEq] at hcontra
      rw [hcontra] at heq
      exact checkpointDF_some_ne_noDir _ _
        ( location_prefix ++ "my_local_check_point") rfl heq
    · rename_i r heq
      split
      · rename_i e2 heq2
        intro hcontra
        simp only at hcontra
        rw [Except.error.injEq] at hcontra
        have hform := delete_hdfs_error_form r.1
          ( location_prefix ++ "my_local_check_point") e2 heq2
        rw [hcontra] at hform
        cases hform
      · intro hcontra
        simp at hcontra
  · intro sc spark st
    rcases create_checkpoint_ex_events sc spark st with h | ⟨st2, h⟩
    · exact ⟨[], by rw [h]⟩
    · exact ⟨(delete_hdfs_directory st2 checkpoint_dir_value).2, h⟩

/-- Witness for C10 at concrete inputs: the run on the fresh state `st0`
does not report the missing-location error, and its trace starts with the
configuration event followed by the checkpoint call. -/
theorem configure_precedes_checkpoint_witness :
    (create_checkpoint_ex sc0 spark0 st0).1 ≠
      Except.error EngineError.noCheckpointDir ∧
    ∃ rest, (create_checkpoint_ex sc0 spark0 st0).2 =
      Event.evSetCheckpointDir checkpoint_dir_value ::
        Event.evCheckpointCall :: rest :=
  ⟨configure_precedes_checkpoint.1 sc0 spark0 st0,
   configure_precedes_checkpoint.2 sc0 spark0 st0⟩

/-- A successful snapshot run has exactly the four expected snapshots: the
fresh dataframe against the initial state, the same against the configured
state, the checkpointed dataframe against the state holding the checkpoint
file, and the checkpointed dataframe against the state after the completed
delete. -/
lemma snapshots_ok_elim (sc : SparkContext) (spark : SparkSession)
    (st : EngineState) (tr : List (EngineState × DataFrame))
    (h : create_checkpoint_snapshots sc spark st = Except.ok tr) :
    tr = [(st, ⟨sampleData, sampleHeaders, none⟩),
          (⟨some checkpoint_dir_value, st.storage, st.unwritable,
              st.undeletable⟩,
            ⟨sampleData, sampleHeaders, none⟩),
          (⟨some checkpoint_dir_value,
              (checkpoint_dir_value ++ "/" ++ checkpointRddName,
                sampleData) :: st.storage, st.unwritable, st.undeletable⟩,
            ⟨sampleData, sampleHeaders,
              some (checkpoint_dir_value ++ "/" ++ checkpointRddName)⟩),
          (⟨some checkpoint_dir_value,
              ((checkpoint_dir_value ++ "/" ++ checkpointRddName,
                sampleData) :: st.storage).filter
                (fun e => !(e.1 == checkpoint_dir_value ||
                  (true && strIsPrefixOf
                    (checkpoint_dir_value ++ "/") e.1))),
              st.unwritable, st.undeletable⟩,
            ⟨sampleData, sampleHeaders,
              some (checkpoint_dir_value ++ "/" ++ checkpointRddName)⟩)] := by
  simp only [create_checkpoint_snapshots, setCheckpointDir,
    create_dataframe_ex, checkpointDF] at h
  split at h
  · cases h
  · rename_i r heq
    split at h
    · cases h
    · rename_i st3 heq2
      rw [Except.ok.injEq] at h
      subst h
      split at heq
      · cases heq
      · rw [Except.ok.injEq] at heq
        subst heq
        have heq3 : (if st.undeletable.contains checkpoint_dir_value = true
            then (Except.error
                (EngineError.deleteRejected checkpoint_dir_value) :
                Except EngineError EngineState)
            else Except.ok
              ⟨some checkpoint_dir_value,
                ((checkpoint_dir_value ++ "/" ++ checkpointRddName,
                  sampleData) :: st.storage).filter
                  (fun e => !(e.1 == checkpoint_dir_value ||
                    (true && strIsPrefixOf
                      (checkpoint_dir_value ++ "/") e.1))),
                st.unwritable, st.undeletable⟩) = Except.ok st3 := heq2
        split at heq3
        · cases heq3
        · rw [Except.ok.injEq] at heq3
          subst heq3
          rfl

/-- C9: in every successful run, the per-dataset state sequence along the
workflow's snapshots is exactly `Unmaterialized, Unmaterialized,
Checkpointed, danglingDeleted` — no step returns the dataset to
`Unmaterialized` — and the dataset object stays usable in memory (its rows
are intact in every snapshot) while its checkpoint file reference dangles at
the end.  The location is never deleted before the dataset is checkpointed:
in every run, successful or not, every delete event occurs strictly after
the checkpoint call in the trace, and a run that fails before the deletion
stage (configuration or persistence error) contains no delete event at
all. -/
theorem workflow_state_machine_order (sc : SparkContext)
    (spark : SparkSession) (st : EngineState)
    (tr : List (EngineState × DataFrame))
    (h : create_checkpoint_snapshots sc spark st = Except.ok tr) :
    (tr.map (fun s => dfStateOf s.1 s.2) =
      [DfState.unmaterialized, DfState.unmaterialized,
       DfState.checkpointed, DfState.danglingDeleted]) ∧
    (∀ s ∈ tr, s.2.rows = sampleData) ∧
    (∀ q r, Event.evFsDelete q r ∈ (create_checkpoint_ex sc spark st).2 →
      ∃ tail, (create_checkpoint_ex sc spark st).2 =
        Event.evSetCheckpointDir checkpoint_dir_value ::
          Event.evCheckpointCall :: tail ∧
        Event.evFsDelete q r ∈ tail) ∧
    (∀ e, (create_checkpoint_ex sc spark st).1 = Except.error e →
      (∀ q r, Event.evFsDelete q r ∉ (create_checkpoint_ex sc spark st).2) ∨
      ∃ p2, e = EngineError.deleteRejected p2) := by
  have htr := snapshots_ok_elim sc spark st tr h
  subst htr
  refine ⟨?_, ?_, ?_, ?_⟩
  · have s4 : dfStateOf
        ⟨some checkpoint_dir_value,
          ((checkpoint_dir_value ++ "/" ++ checkpointRddName,
            sampleData) :: st.storage).filter
            (fun e => !(e.1 == checkpoint_dir_value ||
              (true && strIsPrefixOf (checkpoint_dir_value ++ "/") e.1))),
          st.unwritable, st.undeletable⟩
        ⟨sampleData, sampleHeaders,
          some (checkpoint_dir_value ++ "/" ++ checkpointRddName)⟩ =
        DfState.danglingDeleted := by
      have hfalse : ¬ (fsExists
          ⟨some checkpoint_dir_value,
            ((checkpoint_dir_value ++ "/" ++ checkpointRddName,
              sampleData) :: st.storage).filter
              (fun e => !(e.1 == checkpoint_dir_value ||
                (true && strIsPrefixOf
                  (checkpoint_dir_value ++ "/") e.1))),
            st.unwritable, st.undeletable⟩
          (checkpoint_dir_value ++ "/" ++ checkpointRddName) = true) := by
        intro hcon
        obtain ⟨a, ham, hap⟩ := List.any_eq_true.mp hcon
        obtain ⟨haMem, haKeep⟩ := List.mem_filter.mp ham
        rw [Bool.not_eq_true'] at haKeep
        rw [workflow_delete_covers_file a hap] at haKeep
        cases haKeep
      show (if fsExists
          ⟨some checkpoint_dir_value,
            ((checkpoint_dir_value ++ "/" ++ checkpointRddName,
              sampleData) :: st.storage).filter
              (fun e => !(e.1 == checkpoint_dir_value ||
                (true && strIsPrefixOf
                  (checkpoint_dir_value ++ "/") e.1))),
            st.unwritable, st.undeletable⟩
          (checkpoint_dir_value ++ "/" ++ checkpointRddName)
        then DfState.checkpointed else DfState.danglingDeleted) =
        DfState.danglingDeleted
      rw [if_neg hfalse]
    simp only [List.map_cons, List.map_nil, s4]
    rfl
  · intro s hs
    simp only [List.mem_cons, List.not_mem_nil, or_false] at hs
    rcases hs with rfl | rfl | rfl | rfl <;> rfl
  · intro q r hm
    rcases create_checkpoint_ex_events sc spark st with hv | ⟨st2, hv⟩
    · rw [hv] at hm
      simp at hm
    · rw [hv] at hm ⊢
      simp only [List.mem_cons] at hm
      rcases hm with h1 | h1 | h1
      · cases h1
      · cases h1
      · exact ⟨(delete_hdfs_directory st2 checkpoint_dir_value).2, rfl, h1⟩
  · intro e
    simp only [create_checkpoint_ex]
    split
    · rename_i e2 heq
      intro he
      left
      intro q r hm
      simp [setCheckpointDir] at hm
    · rename_i r heq
      split
      · rename_i e2 heq2
        intro he
        right
        simp only at he
        rw [Except.error.injEq] at he
        exact ⟨ location_prefix ++ "my_local_check_point",
          he ▸ delete_hdfs_error_form r.1
            ( location_prefix ++ "my_local_check_point") e2 heq2⟩
      · intro he
        simp at he

/-- Witness for C9 at concrete inputs: the snapshot run on the fresh state
`st0` succeeds, and its state sequence is exactly the announced chain. -/
theorem workflow_state_machine_order_witness :
    ((create_checkpoint_snapshots sc0 spark0 st0).toOption.getD []).map
      (fun s => dfStateOf s.1 s.2) =
      [DfState.unmaterialized, DfState.unmaterialized,
       DfState.checkpointed, DfState.danglingDeleted] :=
  (workflow_state_machine_order sc0 spark0 st0
    ((create_checkpoint_snapshots sc0 spark0 st0).toOption.getD [])
    (by rfl)).1
